import Mathlib

/-!
Shallow embedding of the accessibility-tests repository's aggregation core.

Source files embedded here:
- `src/checklists.js` — `CHECKLIST_CHAPTERS` (keys) and `AXE_TAG_TO_CHAPTER`.
- `src/run-tests.js` — `categorizeAxeViolation`, `runAxeScan`'s `byChapter`
  construction, `runCustomChecks`, and the per-URL loop of `main` (urls /
  axeResults / customResults / summary bookkeeping).
- `src/remediation-data.js` — `REMEDIATION_MAP`, `AXE_REMEDIATION`,
  `IMPACT_ORDER`, `EFFORT_ORDER`, `getRemediation`, `fixOrderScore`.
- `src/unnamed/part_008` (the source of `generate-report.js`'s report module) —
  score computation, `DISABILITY_MAP`, `ALL_DISABILITIES`, the manual-checklist
  item lists and the `disabilityStats` accumulation.
- `src/unnamed/part_000` (deliverables generator) — the three phase predicates
  of `generateClientPresentation`.

Presentation-only string fields that no claim inspects (remediation `snippet`
texts, chapter display names, checklist item prose, timestamps, screenshots)
are elided from the embedding; every field a claim mentions is kept, with the
source's names.  JavaScript objects used as string-keyed maps are embedded as
association lists or as `String → Option _` functions; `Math.round` on the
non-negative quotient `(pass / total) * 100` is embedded as exact
round-half-up rational rounding.
-/

/-- Keys of `CHECKLIST_CHAPTERS` in `src/checklists.js`, in source order. -/
def chapterKeys : List String :=
  ["semantics", "images", "visualDesign", "responsive",
   "multimedia", "inputMethods", "forms", "dynamicUpdates"]

/-- The `AXE_TAG_TO_CHAPTER` table of `src/checklists.js`. -/
def AXE_TAG_TO_CHAPTER : List (String × List String) :=
  [ ("wcag2a", ["semantics", "images", "forms", "inputMethods"]),
    ("wcag2aa", ["semantics", "images", "visualDesign", "forms", "inputMethods"]),
    ("wcag21a", ["semantics", "images", "forms", "inputMethods"]),
    ("wcag21aa", ["semantics", "images", "visualDesign", "forms", "inputMethods"]),
    ("wcag22aa", ["semantics", "images", "visualDesign", "forms", "inputMethods"]),
    ("best-practice", ["semantics", "images", "forms", "inputMethods", "dynamicUpdates"]),
    ("cat.semantics", ["semantics"]),
    ("cat.name-role-value", ["semantics", "forms", "inputMethods"]),
    ("cat.structure", ["semantics"]),
    ("cat.color", ["visualDesign"]),
    ("cat.parsing", ["semantics"]),
    ("cat.aria", ["semantics", "forms", "inputMethods", "dynamicUpdates"]),
    ("cat.forms", ["forms"]),
    ("cat.keyboard", ["inputMethods"]),
    ("cat.focus", ["inputMethods", "semantics"]),
    ("cat.language", ["semantics"]),
    ("cat.text-alternatives", ["images"]),
    ("cat.time-based-media", ["multimedia"]),
    ("cat.sensory-and-visual-cues", ["visualDesign"]),
    ("cat.layout", ["responsive", "visualDesign"]),
    ("cat.motion", ["multimedia"]) ]

/-- JavaScript property access `AXE_TAG_TO_CHAPTER[tag]` (undefined ↦ `none`). -/
def tagLookup (tag : String) : Option (List String) :=
  (AXE_TAG_TO_CHAPTER.find? (fun p => p.1 == tag)).map (·.2)

/-- Insertion into a JavaScript `Set` materialized as an insertion-ordered
duplicate-free list (`Set.add`). -/
def setAdd (s : List String) (x : String) : List String :=
  if x ∈ s then s else s ++ [x]

/-- The `chapters` set accumulated by `categorizeAxeViolation` before its
emptiness check: the union of the chapter lists of every matching tag, in
insertion order. -/
def categorizeSet (tags : List String) : List String :=
  tags.foldl (fun acc tag =>
    match tagLookup tag with
    | some chs => chs.foldl setAdd acc
    | none => acc) []

/-- Function `categorizeAxeViolation` of `src/run-tests.js` (lines 57-66),
applied to the violation's `tags` list: union the chapter lists of every
matching tag into a `Set`, defaulting to `{"semantics"}` when empty, and
return the insertion-ordered elements. -/
def categorizeAxeViolation (tags : List String) : List String :=
  if categorizeSet tags = [] then ["semantics"] else categorizeSet tags

/-- An audit record (axe violation / incomplete / pass) as consumed by the
core: the classifier only reads `tags`; `id` is kept to track record identity.
Other presentational fields (`help`, `description`, `nodes`) are elided. -/
structure AuditRecord where
  id : String
  tags : List String
deriving DecidableEq, Repr

/-- Per-chapter bucket `{violations, incomplete, passes}` built by
`runAxeScan` in `src/run-tests.js`. -/
structure ChapterBucket where
  violations : List AuditRecord
  incomplete : List AuditRecord
  passes : List AuditRecord
deriving DecidableEq, Repr

/-- The empty bucket a chapter key is initialized with. -/
def emptyBucket : ChapterBucket := ⟨[], [], []⟩

/-- One `byChapter[ch].violations.push(v)`-style update: `byChapter[ch]` is
updated only when the key exists (the `if (byChapter[ch])` guard). -/
def pushRecord (upd : ChapterBucket → AuditRecord → ChapterBucket)
    (m : String → Option ChapterBucket) (ch : String) (v : AuditRecord) :
    String → Option ChapterBucket :=
  fun k => if k = ch then (m k).map (fun b => upd b v) else m k

/-- Fan-out of one record into every chapter of its classification. -/
def pushFanout (upd : ChapterBucket → AuditRecord → ChapterBucket)
    (m : String → Option ChapterBucket) (v : AuditRecord) :
    String → Option ChapterBucket :=
  (categorizeAxeViolation v.tags).foldl (fun m ch => pushRecord upd m ch v) m

/-- Append to the `violations` list of a bucket. -/
def pushViolation (b : ChapterBucket) (v : AuditRecord) : ChapterBucket :=
  { b with violations := b.violations ++ [v] }

/-- Append to the `incomplete` list of a bucket. -/
def pushIncomplete (b : ChapterBucket) (v : AuditRecord) : ChapterBucket :=
  { b with incomplete := b.incomplete ++ [v] }

/-- Append to the `passes` list of a bucket. -/
def pushPass (b : ChapterBucket) (v : AuditRecord) : ChapterBucket :=
  { b with passes := b.passes ++ [v] }

/-- The `byChapter` map built by `runAxeScan` in `src/run-tests.js`
(lines 72-94): initialize an empty bucket for every chapter key of
`CHECKLIST_CHAPTERS`, then fan each violation / incomplete / pass record out
into the buckets of its classified chapters. -/
def runAxeScanByChapter (violations incomplete passes : List AuditRecord) :
    String → Option ChapterBucket :=
  let m0 : String → Option ChapterBucket :=
    fun ch => if ch ∈ chapterKeys then some emptyBucket else none
  let m1 := violations.foldl (pushFanout pushViolation) m0
  let m2 := incomplete.foldl (pushFanout pushIncomplete) m1
  passes.foldl (pushFanout pushPass) m2

/-- Result of `runAxeScan` for one URL (timestamp elided). -/
structure AxeScanResult where
  url : String
  violations : List AuditRecord
  incomplete : List AuditRecord
  passes : List AuditRecord
  byChapter : String → Option ChapterBucket

/-- Function `runAxeScan` of `src/run-tests.js` (lines 68-104), with the
browser/axe analysis abstracted into its output record lists. -/
def runAxeScan (violations incomplete passes : List AuditRecord) (url : String) :
    AxeScanResult :=
  { url := url
    violations := violations
    incomplete := incomplete
    passes := passes
    byChapter := runAxeScanByChapter violations incomplete passes }

/-- A check result as produced by a chapter check module, before
`runCustomChecks` adds the `url` field.  `chapter` is optional because a
JavaScript object may simply lack the property. -/
structure RawResult where
  id : String
  rule : String
  status : String
  message : String
  chapter : Option String
deriving DecidableEq, Repr

/-- A `CheckResult` as stored in the report's `customResults`. -/
structure CheckResult where
  id : String
  rule : String
  status : String
  message : String
  chapter : Option String
  url : String
deriving DecidableEq, Repr

/-- Spread `{ ...r, url }` performed by `runCustomChecks`. -/
def RawResult.withUrl (r : RawResult) (url : String) : CheckResult :=
  { id := r.id, rule := r.rule, status := r.status, message := r.message,
    chapter := r.chapter, url := url }

/-- Outcome of awaiting one chapter module's check function on a page:
either its returned result list or a thrown error's message. -/
inductive AdapterOutcome where
  | ok (results : List RawResult)
  | err (msg : String)
deriving DecidableEq, Repr

/-- The synthetic result pushed by `runCustomChecks` when a chapter module
throws (`src/run-tests.js` lines 124-133). -/
def chapterErrorResult (chapterId url msg : String) : CheckResult :=
  { id := chapterId ++ "-error", rule := chapterId ++ " checks",
    status := "fail", message := msg, chapter := some chapterId, url := url }

/-- Function `runCustomChecks` of `src/run-tests.js` (lines 106-137): run the
eight chapter modules in order, tagging each returned result with the URL and
converting a thrown error into a synthetic `fail` result for that chapter.
The page-dependent behavior of each module is abstracted as a map from the
chapter id to that module's outcome on this page. -/
def runCustomChecks (outcomes : String → AdapterOutcome) (url : String) :
    List CheckResult :=
  chapterKeys.foldl (fun allResults chapterId =>
    match outcomes chapterId with
    | .ok results => allResults ++ results.map (fun r => r.withUrl url)
    | .err msg => allResults ++ [chapterErrorResult chapterId url msg]) []

/-- Axe input of one successfully loaded page. -/
structure AxeInput where
  violations : List AuditRecord
  incomplete : List AuditRecord
  passes : List AuditRecord
deriving Repr

/-- Everything a successfully loaded page feeds into the run: the axe scan's
record lists and each chapter module's outcome. -/
structure PageEnv where
  axe : AxeInput
  adapters : String → AdapterOutcome

/-- Outcome of `page.goto` for one URL: loaded, or failed with an error
message. -/
inductive PageLoad where
  | ok (env : PageEnv)
  | fail (errMsg : String)

/-- The `summary` counters of the report. -/
structure Summary where
  pass : Nat
  fail : Nat
  warn : Nat
deriving DecidableEq, Repr

/-- The run report assembled by `main` in `src/run-tests.js` (screenshots and
timestamps elided). -/
structure RunReport where
  urls : List String
  axeResults : List (String × AxeScanResult)
  customResults : List CheckResult
  summary : Summary

/-- The synthetic `page-load` result pushed by `main`'s catch block
(`src/run-tests.js` lines 227-233).  The pushed object has no `chapter`
property, hence `chapter := none`. -/
def pageLoadResult (url msg : String) : CheckResult :=
  { id := "page-load", rule := "Page load", status := "fail",
    message := msg, chapter := none, url := url }

/-- The per-result summary update of `main` (`src/run-tests.js`
lines 197-201): `pass` and `fail` count their own statuses, every other
status falls into the `else` branch and increments `warn`. -/
def summaryStep (s : Summary) (r : CheckResult) : Summary :=
  if r.status = "pass" then { s with pass := s.pass + 1 }
  else if r.status = "fail" then { s with fail := s.fail + 1 }
  else { s with warn := s.warn + 1 }

/-- One iteration of `main`'s URL loop (`src/run-tests.js` lines 178-238):
on success record the axe scan, the URL and the custom results and count the
custom results into the summary; on page-load failure push the synthetic
`page-load` result and increment `summary.fail`. -/
def mainStep (loads : String → PageLoad) (report : RunReport) (url : String) :
    RunReport :=
  match loads url with
  | .ok env =>
    let axeData := runAxeScan env.axe.violations env.axe.incomplete env.axe.passes url
    let customData := runCustomChecks env.adapters url
    { urls := report.urls ++ [url]
      axeResults := report.axeResults ++ [(url, axeData)]
      customResults := report.customResults ++ customData
      summary := customData.foldl summaryStep report.summary }
  | .fail msg =>
    { report with
      customResults := report.customResults ++ [pageLoadResult url msg]
      summary := { report.summary with fail := report.summary.fail + 1 } }

/-- The report as initialized in `main` (`src/run-tests.js` lines 157-164). -/
def initialReport : RunReport :=
  { urls := [], axeResults := [], customResults := [],
    summary := { pass := 0, fail := 0, warn := 0 } }

/-- The URL loop of `main` in `src/run-tests.js`, folded over the submitted
URL list with each URL's load outcome abstracted by `loads`. -/
def mainLoop (loads : String → PageLoad) (urls : List String) : RunReport :=
  urls.foldl (mainStep loads) initialReport

/-- Exact round-half-up of the non-negative rational `num / den`
(`Math.round` on a non-negative quotient). -/
def jsRound (num den : Nat) : Nat := (2 * num + den) / (2 * den)

/-- The score computation of `generateReport` in the report module
(`src/unnamed/part_008` lines 145-146): `total` sums the summary counters and
the axe violation total; `score` is 100 when `total` is 0 and
`Math.round((pass / total) * 100)` otherwise. -/
def computeScore (pass fail warn auditViolationCount : Nat) : Nat :=
  let total := pass + fail + warn + auditViolationCount
  if total = 0 then 100 else jsRound (pass * 100) total

/-- The defensive clamp `Math.max(0, Math.min(100, score))` applied on
line 147 of the report module. -/
def scoreClamp (score : Nat) : Nat := max 0 (min 100 score)

/-- Modelled from the spec: the scoring contract of §4.5, written from the
spec's words for comparison with `computeScore` — `total = pass + fail + warn
+ auditViolationCount`; if `total == 0` the score is 100, else
`round(100 * pass / total)` clamped into [0, 100]. -/
def specComputeScore (pass fail warn auditViolationCount : Nat) : Nat :=
  let total := pass + fail + warn + auditViolationCount
  if total = 0 then 100
  else max 0 (min 100 (jsRound (100 * pass) total))

/-- A remediation catalog entry of `src/remediation-data.js`
(`{wcag, snippet, impact, effort}`; the presentational `snippet` string is
elided, the fields the claims inspect are kept verbatim). -/
structure RemediationEntry where
  wcag : List String
  impact : String
  effort : String
deriving DecidableEq, Repr

/-- The `REMEDIATION_MAP` table of `src/remediation-data.js` (lines 51-251),
keyed by internal check id. -/
def REMEDIATION_MAP : List (String × RemediationEntry) :=
  [ ("page-title-exists", ⟨["2.4.2"], "high", "simple"⟩),
    ("html-lang", ⟨["3.1.1"], "high", "simple"⟩),
    ("landmarks-present", ⟨["1.3.1", "2.4.1"], "medium", "moderate"⟩),
    ("single-main", ⟨["1.3.1", "2.4.1"], "medium", "simple"⟩),
    ("heading-structure", ⟨["1.3.1", "2.4.6"], "medium", "moderate"⟩),
    ("link-text", ⟨["2.4.4", "4.1.2"], "high", "simple"⟩),
    ("link-meaningful", ⟨["2.4.4"], "medium", "moderate"⟩),
    ("skip-link", ⟨["2.4.1"], "high", "simple"⟩),
    ("table-headers", ⟨["1.3.1"], "high", "moderate"⟩),
    ("list-markup", ⟨["1.3.1"], "medium", "simple"⟩),
    ("iframe-titles", ⟨["4.1.2"], "high", "simple"⟩),
    ("unique-ids", ⟨["4.1.1"], "high", "moderate"⟩),
    ("img-alt", ⟨["1.1.1"], "high", "simple"⟩),
    ("img-alt-length", ⟨["1.1.1"], "medium", "simple"⟩),
    ("svg-role", ⟨["1.1.1", "4.1.2"], "high", "simple"⟩),
    ("svg-accessible-name", ⟨["1.1.1"], "high", "simple"⟩),
    ("canvas-alt", ⟨["1.1.1"], "high", "moderate"⟩),
    ("image-map-alt", ⟨["1.1.1"], "high", "moderate"⟩),
    ("link-differentiation", ⟨["1.4.1"], "medium", "simple"⟩),
    ("focus-indicator", ⟨["2.4.7"], "high", "simple"⟩),
    ("no-horizontal-scroll", ⟨["1.4.10"], "medium", "moderate"⟩),
    ("viewport-zoom", ⟨["1.4.4"], "high", "simple"⟩),
    ("video-captions", ⟨["1.2.2"], "high", "complex"⟩),
    ("video-autoplay", ⟨["1.4.2"], "medium", "simple"⟩),
    ("audio-autoplay", ⟨["1.4.2"], "medium", "simple"⟩),
    ("flash-alternative", ⟨["1.1.1"], "high", "complex"⟩),
    ("tabindex-positive", ⟨["2.4.3"], "high", "simple"⟩),
    ("touch-target-size", ⟨["2.5.5"], "medium", "moderate"⟩),
    ("form-labels", ⟨["3.3.2", "4.1.2"], "high", "simple"⟩),
    ("placeholder-not-only-label", ⟨["3.3.2"], "high", "simple"⟩),
    ("no-auto-refresh", ⟨["2.2.2"], "medium", "moderate"⟩),
    ("dynamic-announcements", ⟨["4.1.3"], "high", "moderate"⟩),
    ("page-load", ⟨[], "high", "complex"⟩) ]

/-- The `AXE_REMEDIATION` table of `src/remediation-data.js` (lines 254-277),
keyed by axe rule id.  Entries written in the source as aliases of
`REMEDIATION_MAP` rows are spelled out with the aliased row's value. -/
def AXE_REMEDIATION : List (String × RemediationEntry) :=
  [ ("document-title", ⟨["2.4.2"], "high", "simple"⟩),
    ("html-has-lang", ⟨["3.1.1"], "high", "simple"⟩),
    ("image-alt", ⟨["1.1.1"], "high", "simple"⟩),
    ("label", ⟨["3.3.2", "4.1.2"], "high", "simple"⟩),
    ("link-name", ⟨["2.4.4", "4.1.2"], "high", "simple"⟩),
    ("button-name", ⟨["2.1.1", "4.1.2"], "high", "simple"⟩),
    ("color-contrast", ⟨["1.4.3"], "high", "moderate"⟩),
    ("landmark-one-main", ⟨["1.3.1", "2.4.1"], "medium", "simple"⟩),
    ("region", ⟨["1.3.1", "2.4.1"], "medium", "moderate"⟩),
    ("landmark-unique", ⟨["1.3.1"], "medium", "simple"⟩),
    ("frame-title", ⟨["4.1.2"], "high", "simple"⟩),
    ("duplicate-id", ⟨["4.1.1"], "high", "moderate"⟩),
    ("heading-order", ⟨["1.3.1", "2.4.6"], "medium", "moderate"⟩),
    ("list", ⟨["1.3.1"], "medium", "simple"⟩),
    ("tabindex", ⟨["2.4.3"], "high", "simple"⟩),
    ("focus-order-semantics", ⟨["2.4.3"], "medium", "moderate"⟩),
    ("meta-viewport", ⟨["1.4.4"], "high", "simple"⟩),
    ("aria-valid-attr", ⟨["4.1.2"], "high", "simple"⟩),
    ("aria-valid-attr-value", ⟨["4.1.2"], "high", "simple"⟩),
    ("aria-required-attr", ⟨["4.1.2"], "high", "moderate"⟩),
    ("input-button-name", ⟨["3.3.2", "4.1.2"], "high", "simple"⟩),
    ("form-field-multiple-labels", ⟨["3.3.2"], "medium", "simple"⟩) ]

/-- JavaScript lookup `REMEDIATION_MAP[checkId]`. -/
def rmLookup (checkId : String) : Option RemediationEntry :=
  (REMEDIATION_MAP.find? (fun p => p.1 == checkId)).map (·.2)

/-- JavaScript lookup `AXE_REMEDIATION[axeRuleId]`. -/
def axeRemLookup (axeRuleId : String) : Option RemediationEntry :=
  (AXE_REMEDIATION.find? (fun p => p.1 == axeRuleId)).map (·.2)

/-- The generic placeholder entry returned by `getRemediation` when neither
table matches (`src/remediation-data.js` lines 284-289). -/
def genericRemediation : RemediationEntry := ⟨[], "medium", "moderate"⟩

/-- Function `getRemediation` of `src/remediation-data.js` (lines 283-290):
internal check id first, then axe rule id, then the generic placeholder
(catalog rows are objects, hence always truthy, so `||` is existence). -/
def getRemediation (checkId axeRuleId : String) : RemediationEntry :=
  match rmLookup checkId with
  | some e => e
  | none =>
    match axeRemLookup axeRuleId with
    | some e => e
    | none => genericRemediation

/-- The `IMPACT_ORDER` table of `src/remediation-data.js` (line 280). -/
def IMPACT_ORDER (impact : String) : Option Nat :=
  if impact == "high" then some 0
  else if impact == "medium" then some 1
  else if impact == "low" then some 2
  else none

/-- The `EFFORT_ORDER` table of `src/remediation-data.js` (line 281). -/
def EFFORT_ORDER (effort : String) : Option Nat :=
  if effort == "simple" then some 0
  else if effort == "moderate" then some 1
  else if effort == "complex" then some 2
  else none

/-- A fix-order item as consumed by `fixOrderScore` and the phase predicates
of `generateClientPresentation`: only `rule`, `impact` and `effort` are
inspected (status, url, wcag and snippet are elided). -/
structure FixItem where
  rule : String
  impact : String
  effort : String
deriving DecidableEq, Repr

/-- Function `fixOrderScore` of `src/remediation-data.js` (lines 292-296):
`(IMPACT_ORDER[item.impact] ?? 1) * 10 + (EFFORT_ORDER[item.effort] ?? 1)`. -/
def fixOrderScore (item : FixItem) : Nat :=
  (IMPACT_ORDER item.impact).getD 1 * 10 + (EFFORT_ORDER item.effort).getD 1

/-- Modelled from the spec: `impactRank` = high 0, medium 1, low 2 (§4.4). -/
def specImpactRank (impact : String) : Nat :=
  if impact = "high" then 0 else if impact = "medium" then 1 else 2

/-- Modelled from the spec: `effortRank` = simple 0, moderate 1, complex 2
(§4.4). -/
def specEffortRank (effort : String) : Nat :=
  if effort = "simple" then 0 else if effort = "moderate" then 1 else 2

/-- The Phase 1 ("quick wins") filter predicate of
`generateClientPresentation` (`src/unnamed/part_000` line 312). -/
def phase1Pred (i : FixItem) : Bool :=
  i.impact == "high" && i.effort == "simple"

/-- The Phase 2 ("medium effort") filter predicate of
`generateClientPresentation` (`src/unnamed/part_000` line 313). -/
def phase2Pred (i : FixItem) : Bool :=
  (i.impact == "high" && !(i.effort == "simple")) ||
  (i.impact == "medium" && i.effort == "simple")

/-- The Phase 3 ("long term") filter predicate of
`generateClientPresentation` (`src/unnamed/part_000` line 314). -/
def phase3Pred (i : FixItem) : Bool :=
  i.effort == "complex" ||
  (i.impact == "medium" && !(i.effort == "simple")) ||
  i.impact == "low"

/-- The `ALL_DISABILITIES` list of the report module
(`src/unnamed/part_008` lines 61-65). -/
def ALL_DISABILITIES : List String :=
  ["Blindness", "Low Vision", "Colorblindness", "Deafness and Hard-of-Hearing",
   "Deafblindness", "Dexterity/Motor Disabilities", "Speech Disabilities",
   "Cognitive Disabilities", "Reading Disabilities", "Seizure Disorders", "Various"]

/-- The `DISABILITY_MAP` table of the report module
(`src/unnamed/part_008` lines 25-59), mapping check ids to disability
categories. -/
def DISABILITY_MAP : List (String × List String) :=
  [ ("page-title-exists", ["Blindness", "Low Vision", "Reading Disabilities", "Cognitive Disabilities"]),
    ("html-lang", ["Blindness", "Reading Disabilities", "Cognitive Disabilities"]),
    ("landmarks-present", ["Blindness", "Low Vision", "Cognitive Disabilities"]),
    ("single-main", ["Blindness", "Low Vision", "Cognitive Disabilities"]),
    ("heading-structure", ["Blindness", "Low Vision", "Reading Disabilities", "Cognitive Disabilities"]),
    ("link-text", ["Blindness", "Low Vision", "Reading Disabilities"]),
    ("link-meaningful", ["Blindness", "Low Vision", "Reading Disabilities", "Cognitive Disabilities"]),
    ("skip-link", ["Blindness", "Dexterity/Motor Disabilities"]),
    ("table-headers", ["Blindness", "Low Vision", "Reading Disabilities", "Cognitive Disabilities"]),
    ("list-markup", ["Blindness", "Low Vision", "Reading Disabilities", "Cognitive Disabilities"]),
    ("iframe-titles", ["Blindness", "Low Vision", "Cognitive Disabilities"]),
    ("unique-ids", ["Blindness", "Cognitive Disabilities"]),
    ("img-alt", ["Blindness", "Low Vision", "Deafblindness"]),
    ("img-alt-length", ["Blindness", "Low Vision", "Deafblindness", "Cognitive Disabilities"]),
    ("svg-role", ["Blindness", "Low Vision", "Deafblindness"]),
    ("svg-accessible-name", ["Blindness", "Low Vision", "Deafblindness"]),
    ("canvas-alt", ["Blindness", "Low Vision", "Deafblindness"]),
    ("image-map-alt", ["Blindness", "Low Vision", "Deafblindness"]),
    ("link-differentiation", ["Colorblindness", "Low Vision"]),
    ("focus-indicator", ["Low Vision", "Dexterity/Motor Disabilities", "Blindness"]),
    ("no-horizontal-scroll", ["Low Vision", "Dexterity/Motor Disabilities"]),
    ("viewport-zoom", ["Low Vision", "Dexterity/Motor Disabilities"]),
    ("video-captions", ["Deafness and Hard-of-Hearing", "Deafblindness"]),
    ("video-autoplay", ["Deafness and Hard-of-Hearing", "Cognitive Disabilities"]),
    ("audio-autoplay", ["Deafness and Hard-of-Hearing"]),
    ("flash-alternative", ["Blindness", "Deafness and Hard-of-Hearing"]),
    ("tabindex-positive", ["Dexterity/Motor Disabilities", "Blindness"]),
    ("touch-target-size", ["Dexterity/Motor Disabilities", "Low Vision"]),
    ("form-labels", ["Blindness", "Cognitive Disabilities", "Reading Disabilities"]),
    ("placeholder-not-only-label", ["Blindness", "Cognitive Disabilities", "Reading Disabilities"]),
    ("no-auto-refresh", ["Cognitive Disabilities", "Dexterity/Motor Disabilities"]),
    ("dynamic-announcements", ["Blindness", "Cognitive Disabilities"]),
    ("page-load", ["Various"]) ]

/-- JavaScript lookup `DISABILITY_MAP[id]`. -/
def dmLookup (id : String) : Option (List String) :=
  (DISABILITY_MAP.find? (fun p => p.1 == id)).map (·.2)

/-- The disability lists of `MANUAL_VERIFICATION_ITEMS` in the report module
(`src/unnamed/part_008` lines 67-81), in source order (item prose elided). -/
def MANUAL_VERIFICATION_ITEMS : List (List String) :=
  [ ["Blindness", "Low Vision", "Reading Disabilities", "Cognitive Disabilities"],
    ["Blindness", "Low Vision", "Reading Disabilities", "Cognitive Disabilities"],
    ["Blindness", "Low Vision", "Deafblindness"],
    ["Low Vision", "Colorblindness"],
    ["Colorblindness", "Low Vision"],
    ["Blindness", "Dexterity/Motor Disabilities"],
    ["Blindness", "Dexterity/Motor Disabilities", "Low Vision"],
    ["Dexterity/Motor Disabilities", "Low Vision"],
    ["Blindness", "Cognitive Disabilities", "Reading Disabilities"],
    ["Blindness", "Cognitive Disabilities"],
    ["Seizure Disorders"],
    ["Deafness and Hard-of-Hearing", "Deafblindness"],
    ["Cognitive Disabilities"] ]

/-- The disability lists of `ASSISTIVE_TECH_ITEMS` in the report module
(`src/unnamed/part_008` lines 83-94), in source order (item prose elided). -/
def ASSISTIVE_TECH_ITEMS : List (List String) :=
  [ ["Blindness", "Low Vision"],
    ["Blindness", "Low Vision"],
    ["Blindness", "Cognitive Disabilities"],
    ["Blindness", "Dexterity/Motor Disabilities"],
    ["Blindness", "Dexterity/Motor Disabilities", "Low Vision"],
    ["Blindness", "Dexterity/Motor Disabilities"],
    ["Low Vision"],
    ["Low Vision"],
    ["Cognitive Disabilities"],
    ["Dexterity/Motor Disabilities", "Low Vision"] ]

/-- One `disabilityStats[d]++` guarded by
`if (disabilityStats[d] !== undefined)`: keys absent from the stats object
are left untouched. -/
def bumpStat (s : String → Option Nat) (d : String) : String → Option Nat :=
  fun k => if k = d then (s k).map (· + 1) else s k

/-- The line `disabilityStats['Various'] = (disabilityStats['Various'] || 0)
+ count` of the report module (line 159). -/
def addVarious (s : String → Option Nat) (count : Nat) : String → Option Nat :=
  fun k => if k = "Various" then some ((s k).getD 0 + count) else s k

/-- The `disabilityStats` accumulation of `generateReport`
(`src/unnamed/part_008` lines 149-160): initialize every category of
`ALL_DISABILITIES` to 0; for each custom result bump every category of
`DISABILITY_MAP[r.id]` (default `['Various']`); bump every category of every
static manual-verification and assistive-tech item; and for each entry of
`axeResults` add its violation count times `Math.max(1, urls.length || 1)`
to "Various".  `axeViolationCounts` lists `violations.length` per
`axeResults` entry and `urlCount` is `reportData.urls.length`. -/
def disabilityStats (customResults : List CheckResult)
    (axeViolationCounts : List Nat) (urlCount : Nat) : String → Option Nat :=
  let s0 : String → Option Nat :=
    fun d => if d ∈ ALL_DISABILITIES then some 0 else none
  let s1 := customResults.foldl
    (fun s r => ((dmLookup r.id).getD ["Various"]).foldl bumpStat s) s0
  let s2 := (MANUAL_VERIFICATION_ITEMS ++ ASSISTIVE_TECH_ITEMS).foldl
    (fun s ds => ds.foldl bumpStat s) s1
  axeViolationCounts.foldl
    (fun s c => addVarious s (c * max 1 (if urlCount = 0 then 1 else urlCount))) s2

/-- Whether `page.goto` succeeded for a URL under the given load outcomes. -/
def loadOk (loads : String → PageLoad) (u : String) : Bool :=
  match loads u with
  | .ok _ => true
  | .fail _ => false

/-- The `customResults` contribution of one URL in `main`'s loop: the tagged
custom check results on success, the single synthetic `page-load` failure
result otherwise. -/
def perUrlResults (loads : String → PageLoad) (u : String) : List CheckResult :=
  match loads u with
  | .ok env => runCustomChecks env.adapters u
  | .fail msg => [pageLoadResult u msg]

/-- The `axeResults` contribution of one URL in `main`'s loop. -/
def perUrlAxe (loads : String → PageLoad) (u : String) :
    Option (String × AxeScanResult) :=
  match loads u with
  | .ok env =>
    some (u, runAxeScan env.axe.violations env.axe.incomplete env.axe.passes u)
  | .fail _ => none

/-- A raw module result carries a chapter field naming one of the 8 chapter
keys. -/
def rawChapterValid (r : RawResult) : Bool :=
  match r.chapter with
  | some c => chapterKeys.contains c
  | none => false

/-- Every result of a module outcome carries a valid chapter field. -/
def outcomeValid (o : AdapterOutcome) : Bool :=
  match o with
  | .ok rs => rs.all rawChapterValid
  | .err _ => true

/-- Every chapter module of a page tags its results with a valid chapter key
(each of the 8 modules sets `chapter: chapterId` with its own chapter
constant, verified against the module sources). -/
def adaptersValid (adapters : String → AdapterOutcome) : Bool :=
  chapterKeys.all (fun ch => outcomeValid (adapters ch))

/-- Adapter outcome map returning the given results for one chapter and no
results for the others, used for concrete runs. -/
def onlyChapterOutcome (ch : String) (rs : List RawResult) :
    String → AdapterOutcome :=
  fun c => if c = ch then .ok rs else .ok []

/-- The result the chapter-3 module `runVisualChecks` pushes unconditionally
(`src/unnamed/part_008` lines 616-622): status `info`. -/
def infoRawResult : RawResult :=
  { id := "focus-indicator"
    rule := "Focusable elements MUST have visible focus indicator (axe covers contrast)"
    status := "info"
    message := "3 focusable elements - verify focus styles in axe results"
    chapter := some "visualDesign" }

/-- Concrete load outcomes for a run whose single page loads and yields one
`info`-status check result. -/
def c3Loads : String → PageLoad :=
  fun _ => .ok { axe := ⟨[], [], []⟩,
                 adapters := onlyChapterOutcome "visualDesign" [infoRawResult] }

/-- Concrete load outcomes where every page fails to load. -/
def c5Loads : String → PageLoad :=
  fun _ => .fail "net::ERR_CONNECTION_REFUSED at https://a.example"

/-- A passing raw result used in concrete runs. -/
def passRawResult : RawResult :=
  { id := "page-title-exists", rule := "Page MUST have a title",
    status := "pass", message := "Title present", chapter := some "semantics" }

/-- A failing raw result used in concrete runs. -/
def failRawResult : RawResult :=
  { id := "html-lang", rule := "Page MUST declare a language",
    status := "fail", message := "Missing lang attribute",
    chapter := some "semantics" }

/-- A warning raw result used in concrete runs. -/
def warnRawResult : RawResult :=
  { id := "link-meaningful", rule := "Link text SHOULD be meaningful",
    status := "warn", message := "2 generic link(s)", chapter := some "semantics" }

/-- Page environment of a successfully loading page used in concrete runs. -/
def okPageEnv : PageEnv :=
  { axe := ⟨[], [], []⟩,
    adapters := onlyChapterOutcome "semantics"
      [passRawResult, failRawResult, warnRawResult] }

/-- Concrete load outcomes for the 3-URL scenario: the second URL fails to
load, the other two succeed with a mix of pass/fail/warn checks. -/
def c4Loads : String → PageLoad :=
  fun u => if u = "https://b.example" then .fail "Timeout 60000ms exceeded"
           else .ok okPageEnv

/-- The URL list of the 3-URL scenario. -/
def c4Urls : List String :=
  ["https://a.example", "https://b.example", "https://c.example"]

/-- Concrete load outcomes for a run with one loading page (with valid
chapter tags) and one failing page. -/
def c5wLoads : String → PageLoad :=
  fun u => if u = "https://b.example" then .fail "boom" else .ok okPageEnv

/-! ### Generic list helper lemmas -/

theorem foldl_append_init {α β : Type} (g : α → List β) (l : List α) :
    ∀ acc : List β, l.foldl (fun a x => a ++ g x) acc = acc ++ l.flatMap g := by
  induction l with
  | nil => intro acc; simp
  | cons x t ih => intro acc; simp [ih, List.append_assoc]

theorem countP_eq_sum_map {α : Type} (p : α → Bool) (l : List α) :
    l.countP p = (l.map (fun x => if p x then 1 else 0)).sum := by
  induction l with
  | nil => simp
  | cons x t ih => by_cases h : p x <;> simp [List.countP_cons, h, ih, Nat.add_comm]

theorem countP_flatMap {α β : Type} (p : β → Bool) (g : α → List β) (l : List α) :
    (l.flatMap g).countP p = (l.map (fun x => (g x).countP p)).sum := by
  induction l with
  | nil => simp
  | cons x t ih => simp [List.countP_append, ih]

/-! ### Chapter classifier lemmas (categorizeAxeViolation) -/

theorem setAdd_nodup {s : List String} (x : String) (h : s.Nodup) :
    (setAdd s x).Nodup := by
  unfold setAdd
  split
  · exact h
  · simpa [List.nodup_append] using ⟨h, by assumption⟩

theorem foldl_setAdd_nodup (chs : List String) :
    ∀ acc : List String, acc.Nodup → (chs.foldl setAdd acc).Nodup := by
  induction chs with
  | nil => intro acc h; exact h
  | cons c t ih => intro acc h; exact ih _ (setAdd_nodup c h)

theorem foldl_setAdd_pred (P : String → Prop) (chs : List String) :
    ∀ acc : List String, (∀ c ∈ acc, P c) → (∀ c ∈ chs, P c) →
      ∀ c ∈ chs.foldl setAdd acc, P c := by
  induction chs with
  | nil => intro acc ha _ c hc; exact ha c hc
  | cons x t ih =>
    intro acc ha hx c hc
    refine ih (setAdd acc x) ?_ (fun c hc => hx c (List.mem_cons_of_mem _ hc)) c hc
    intro c' hc'
    unfold setAdd at hc'
    split at hc'
    · exact ha c' hc'
    · rcases List.mem_append.mp hc' with h | h
      · exact ha c' h
      · simp only [List.mem_singleton] at h
        exact h ▸ hx x (List.mem_cons_self x t)


theorem categorizeSet_nodup (tags : List String) :
    (categorizeSet tags).Nodup := by
  have : ∀ (ts : List String) (acc : List String), acc.Nodup →
      (ts.foldl (fun acc tag =>
        match tagLookup tag with
        | some chs => chs.foldl setAdd acc
        | none => acc) acc).Nodup := by
    intro ts
    induction ts with
    | nil => intro acc h; exact h
    | cons t rest ih =>
      intro acc h
      simp only [List.foldl_cons]
      cases htl : tagLookup t
      · exact ih acc h
      · exact ih _ (foldl_setAdd_nodup _ _ h)
  exact this tags [] List.nodup_nil

theorem categorize_nodup (tags : List String) :
    (categorizeAxeViolation tags).Nodup := by
  unfold categorizeAxeViolation
  split
  · simp
  · exact categorizeSet_nodup tags

theorem categorizeSet_subset (tags : List String) :
    ∀ c ∈ categorizeSet tags, c ∈ chapterKeys := by
  have htab : ∀ p ∈ AXE_TAG_TO_CHAPTER, ∀ c ∈ p.2, c ∈ chapterKeys := by decide
  have : ∀ (ts : List String) (acc : List String),
      (∀ c ∈ acc, c ∈ chapterKeys) →
      ∀ c ∈ (ts.foldl (fun acc tag =>
        match tagLookup tag with
        | some chs => chs.foldl setAdd acc
        | none => acc) acc), c ∈ chapterKeys := by
    intro ts
    induction ts with
    | nil => intro acc h; exact h
    | cons t rest ih =>
      intro acc h
      simp only [List.foldl_cons]
      cases htl : tagLookup t with
      | none => exact ih acc h
      | some chs =>
        refine ih _ (foldl_setAdd_pred _ chs acc h ?_)
        intro c hc
        unfold tagLookup at htl
        cases hf : AXE_TAG_TO_CHAPTER.find? (fun p => p.1 == t) with
        | none => simp [hf] at htl
        | some pr =>
          rw [hf] at htl
          simp only [Option.map_some'] at htl
          exact htab pr (List.mem_of_find?_eq_some hf) c
            (by rw [Option.some_inj] at htl; rw [htl]; exact hc)
  exact this tags [] (by simp)

theorem categorize_subset (tags : List String) :
    ∀ c ∈ categorizeAxeViolation tags, c ∈ chapterKeys := by
  unfold categorizeAxeViolation
  split
  · intro c hc
    simp only [List.mem_singleton] at hc
    subst hc; decide
  · exact categorizeSet_subset tags

theorem categorizeSet_of_all_none (tags : List String)
    (h : ∀ t ∈ tags, tagLookup t = none) :
    categorizeSet tags = [] := by
  unfold categorizeSet
  induction tags with
  | nil => rfl
  | cons t rest ih =>
    have ht := h t (List.mem_cons_self t rest)
    simp only [List.foldl_cons, ht]
    exact ih (fun t' h' => h t' (List.mem_cons_of_mem _ h'))

/-! ### Summary and main-loop lemmas -/

theorem summary_foldl_spec (rs : List CheckResult) :
    ∀ s : Summary, rs.foldl summaryStep s =
      { pass := s.pass + rs.countP (fun r => r.status == "pass")
        fail := s.fail + rs.countP (fun r => r.status == "fail")
        warn := s.warn + rs.countP
          (fun r => !(r.status == "pass") && !(r.status == "fail")) } := by
  induction rs with
  | nil => intro s; simp
  | cons r t ih =>
    intro s
    simp only [List.foldl_cons, ih, List.countP_cons]
    by_cases hp : r.status = "pass"
    · simp [summaryStep, hp]
      omega
    · by_cases hf : r.status = "fail"
      · simp [summaryStep, hp, hf]
        omega
      · simp [summaryStep, hp, hf]
        omega

theorem runCustomChecks_eq_flatMap (outcomes : String → AdapterOutcome)
    (url : String) :
    runCustomChecks outcomes url = chapterKeys.flatMap (fun chapterId =>
      match outcomes chapterId with
      | .ok results => results.map (fun r => r.withUrl url)
      | .err msg => [chapterErrorResult chapterId url msg]) := by
  unfold runCustomChecks
  have : (fun (allResults : List CheckResult) (chapterId : String) =>
      match outcomes chapterId with
      | AdapterOutcome.ok results =>
          allResults ++ results.map (fun r => r.withUrl url)
      | AdapterOutcome.err msg =>
          allResults ++ [chapterErrorResult chapterId url msg])
      = (fun allResults chapterId => allResults ++
          (match outcomes chapterId with
           | AdapterOutcome.ok results => results.map (fun r => r.withUrl url)
           | AdapterOutcome.err msg => [chapterErrorResult chapterId url msg])) := by
    funext acc ch
    cases outcomes ch <;> rfl
  rw [this, foldl_append_init]
  simp

theorem mainStep_spec (loads : String → PageLoad) (report : RunReport)
    (u : String) :
    mainStep loads report u =
      { urls := report.urls ++ (if loadOk loads u then [u] else [])
        axeResults := report.axeResults ++ (perUrlAxe loads u).toList
        customResults := report.customResults ++ perUrlResults loads u
        summary := (perUrlResults loads u).foldl summaryStep report.summary } := by
  unfold mainStep loadOk perUrlAxe perUrlResults
  cases h : loads u with
  | ok env => simp
  | fail msg =>
    simp [summaryStep, pageLoadResult]

theorem mainLoop_foldl_spec (loads : String → PageLoad) (urls : List String) :
    ∀ report : RunReport, urls.foldl (mainStep loads) report =
      { urls := report.urls ++ urls.filter (fun u => loadOk loads u)
        axeResults := report.axeResults ++ urls.flatMap
          (fun u => (perUrlAxe loads u).toList)
        customResults := report.customResults ++ urls.flatMap (perUrlResults loads)
        summary := (urls.flatMap (perUrlResults loads)).foldl summaryStep
          report.summary } := by
  induction urls with
  | nil => intro report; simp
  | cons u us ih =>
    intro report
    simp only [List.foldl_cons, ih, mainStep_spec, List.filter_cons,
      List.flatMap_cons, List.foldl_append, List.append_assoc]
    by_cases h : loadOk loads u <;> simp [h]

theorem mainLoop_spec (loads : String → PageLoad) (urls : List String) :
    mainLoop loads urls =
      { urls := urls.filter (fun u => loadOk loads u)
        axeResults := urls.flatMap (fun u => (perUrlAxe loads u).toList)
        customResults := urls.flatMap (perUrlResults loads)
        summary := (urls.flatMap (perUrlResults loads)).foldl summaryStep
          { pass := 0, fail := 0, warn := 0 } } := by
  unfold mainLoop
  rw [mainLoop_foldl_spec]
  simp [initialReport]

/-! ### Chapter bucketing lemmas (runAxeScan byChapter) -/

theorem foldl_pushRecord_spec (upd : ChapterBucket → AuditRecord → ChapterBucket)
    (v : AuditRecord) (chs : List String) (hnd : chs.Nodup) :
    ∀ (m : String → Option ChapterBucket) (ch : String),
      (chs.foldl (fun m c => pushRecord upd m c v) m) ch
        = if ch ∈ chs then (m ch).map (fun b => upd b v) else m ch := by
  induction chs with
  | nil => intro m ch; simp
  | cons c t ih =>
    intro m ch
    have hndt : t.Nodup := hnd.of_cons
    have hct : c ∉ t := (List.nodup_cons.mp hnd).1
    simp only [List.foldl_cons]
    rw [ih hndt]
    by_cases hmem : ch ∈ t
    · have hne : ch ≠ c := fun h => hct (h ▸ hmem)
      simp [hmem, pushRecord, hne, List.mem_cons]
    · by_cases heq : ch = c
      · subst heq
        simp [hmem, pushRecord, List.mem_cons]
      · simp [hmem, heq, pushRecord, List.mem_cons]

theorem foldl_pushFanout_spec (upd : ChapterBucket → AuditRecord → ChapterBucket)
    (records : List AuditRecord) :
    ∀ (m : String → Option ChapterBucket) (ch : String),
      (records.foldl (pushFanout upd) m) ch
        = (m ch).map (fun b => records.foldl
            (fun b v => if ch ∈ categorizeAxeViolation v.tags then upd b v else b) b) := by
  induction records with
  | nil => intro m ch; simp
  | cons v vs ih =>
    intro m ch
    simp only [List.foldl_cons]
    rw [ih]
    unfold pushFanout
    rw [foldl_pushRecord_spec upd v _ (categorize_nodup v.tags)]
    by_cases hmem : ch ∈ categorizeAxeViolation v.tags
    · simp only [hmem, if_true, Option.map_map]
      rfl
    · simp only [hmem, if_false]

theorem foldl_cond_pushViolation (p : AuditRecord → Bool)
    (records : List AuditRecord) :
    ∀ b : ChapterBucket,
      records.foldl (fun b v => if p v then pushViolation b v else b) b
        = { b with violations := b.violations ++ records.filter p } := by
  induction records with
  | nil => intro b; simp
  | cons v vs ih =>
    intro b
    simp only [List.foldl_cons, List.filter_cons]
    by_cases h : p v
    · simp only [h, if_true]
      rw [ih]
      simp [pushViolation, List.append_assoc]
    · simp only [Bool.not_eq_true] at h
      simp only [h, Bool.false_eq_true, if_false]
      exact ih b

theorem foldl_cond_pushIncomplete (p : AuditRecord → Bool)
    (records : List AuditRecord) :
    ∀ b : ChapterBucket,
      records.foldl (fun b v => if p v then pushIncomplete b v else b) b
        = { b with incomplete := b.incomplete ++ records.filter p } := by
  induction records with
  | nil => intro b; simp
  | cons v vs ih =>
    intro b
    simp only [List.foldl_cons, List.filter_cons]
    by_cases h : p v
    · simp only [h, if_true]
      rw [ih]
      simp [pushIncomplete, List.append_assoc]
    · simp only [Bool.not_eq_true] at h
      simp only [h, Bool.false_eq_true, if_false]
      exact ih b

theorem foldl_cond_pushPass (p : AuditRecord → Bool)
    (records : List AuditRecord) :
    ∀ b : ChapterBucket,
      records.foldl (fun b v => if p v then pushPass b v else b) b
        = { b with passes := b.passes ++ records.filter p } := by
  induction records with
  | nil => intro b; simp
  | cons v vs ih =>
    intro b
    simp only [List.foldl_cons, List.filter_cons]
    by_cases h : p v
    · simp only [h, if_true]
      rw [ih]
      simp [pushPass, List.append_assoc]
    · simp only [Bool.not_eq_true] at h
      simp only [h, Bool.false_eq_true, if_false]
      exact ih b

theorem runAxeScanByChapter_spec (violations incomplete passes : List AuditRecord)
    (ch : String) (h : ch ∈ chapterKeys) :
    runAxeScanByChapter violations incomplete passes ch =
      some { violations := violations.filter
               (fun v => decide (ch ∈ categorizeAxeViolation v.tags))
             incomplete := incomplete.filter
               (fun v => decide (ch ∈ categorizeAxeViolation v.tags))
             passes := passes.filter
               (fun v => decide (ch ∈ categorizeAxeViolation v.tags)) } := by
  unfold runAxeScanByChapter
  rw [foldl_pushFanout_spec, foldl_pushFanout_spec, foldl_pushFanout_spec]
  simp only [h, if_true, Option.map_some']
  have hv := foldl_cond_pushViolation
    (fun v => decide (ch ∈ categorizeAxeViolation v.tags)) violations emptyBucket
  have hi := foldl_cond_pushIncomplete
    (fun v => decide (ch ∈ categorizeAxeViolation v.tags)) incomplete
  have hp := foldl_cond_pushPass
    (fun v => decide (ch ∈ categorizeAxeViolation v.tags)) passes
  simp only [decide_eq_true_eq] at hv hi hp
  rw [hv, hi, hp]
  simp [emptyBucket]

/-! ### Disability statistics lemmas -/

theorem foldl_bumpStat_spec (ds : List String) (hnd : ds.Nodup) :
    ∀ (s : String → Option Nat) (k : String),
      (ds.foldl bumpStat s) k = (s k).map (· + if k ∈ ds then 1 else 0) := by
  induction ds with
  | nil =>
    intro s k
    simp [Option.map_id']
  | cons d t ih =>
    intro s k
    have hndt : t.Nodup := hnd.of_cons
    have hdt : d ∉ t := (List.nodup_cons.mp hnd).1
    simp only [List.foldl_cons]
    rw [ih hndt]
    by_cases hk : k = d
    · subst hk
      have : k ∉ t := hdt
      simp [bumpStat, this, Option.map_map, List.mem_cons]
      rfl
    · simp [bumpStat, hk, List.mem_cons]

theorem foldl_bumpLists_spec {α : Type} (listOf : α → List String)
    (xs : List α) (hnd : ∀ x ∈ xs, (listOf x).Nodup) :
    ∀ (s : String → Option Nat) (k : String),
      (xs.foldl (fun s x => (listOf x).foldl bumpStat s) s) k
        = (s k).map (· + (xs.map (fun x => if k ∈ listOf x then 1 else 0)).sum) := by
  induction xs with
  | nil =>
    intro s k
    simp [Option.map_id']
  | cons x t ih =>
    intro s k
    simp only [List.foldl_cons]
    rw [ih (fun y hy => hnd y (List.mem_cons_of_mem x hy)),
      foldl_bumpStat_spec _ (hnd x (List.mem_cons_self x t)), Option.map_map]
    cases s k <;> simp [Nat.add_assoc]

theorem foldl_addVarious_ne (cs : List Nat) (M : Nat) :
    ∀ (s : String → Option Nat) (k : String), k ≠ "Various" →
      (cs.foldl (fun s c => addVarious s (c * M)) s) k = s k := by
  induction cs with
  | nil => intro s k _; rfl
  | cons c t ih =>
    intro s k hk
    simp only [List.foldl_cons]
    rw [ih _ _ hk]
    simp [addVarious, hk]

theorem foldl_addVarious_spec (cs : List Nat) (M : Nat) :
    ∀ (s : String → Option Nat) (n : Nat), s "Various" = some n →
      (cs.foldl (fun s c => addVarious s (c * M)) s) "Various"
        = some (n + (cs.map (· * M)).sum) := by
  induction cs with
  | nil => intro s n h; simpa using h
  | cons c t ih =>
    intro s n h
    simp only [List.foldl_cons]
    rw [ih _ (n + c * M) (by simp [addVarious, h])]
    simp [Nat.add_assoc]

theorem dmLookup_nodup (id : String) :
    ((dmLookup id).getD ["Various"]).Nodup := by
  have htab : ∀ p ∈ DISABILITY_MAP, p.2.Nodup := by decide
  cases hf : DISABILITY_MAP.find? (fun p => p.1 == id) with
  | none => simp [dmLookup, hf]
  | some pr =>
    simp only [dmLookup, hf, Option.map_some', Option.getD_some]
    exact htab pr (List.mem_of_find?_eq_some hf)

/-! ### Scoring lemmas -/

theorem jsRound_le (p t : Nat) (ht : t ≠ 0) (hp : p ≤ t) :
    jsRound (p * 100) t ≤ 100 := by
  unfold jsRound
  have h2t : 0 < 2 * t := by omega
  have : 2 * (p * 100) + t < 101 * (2 * t) := by omega
  have := (Nat.div_lt_iff_lt_mul h2t).mpr this
  omega

theorem computeScore_le (p f w a : Nat) : computeScore p f w a ≤ 100 := by
  unfold computeScore
  by_cases h : p + f + w + a = 0
  · simp [h]
  · simp only [h, if_false]
    exact jsRound_le p (p + f + w + a) h (by omega)

theorem scoreClamp_of_le (s : Nat) (h : s ≤ 100) : scoreClamp s = s := by
  unfold scoreClamp
  omega

/-! ### Custom-check result lemmas -/

theorem runCustomChecks_no_page_load (outcomes : String → AdapterOutcome)
    (url : String)
    (h : ∀ ch rs, outcomes ch = .ok rs → ∀ r ∈ rs, r.id ≠ "page-load") :
    ∀ r ∈ runCustomChecks outcomes url, r.id ≠ "page-load" := by
  intro r hr
  rw [runCustomChecks_eq_flatMap] at hr
  rcases List.mem_flatMap.mp hr with ⟨ch, hch, hmem⟩
  cases ho : outcomes ch with
  | ok results =>
    rw [ho] at hmem
    rcases List.mem_map.mp hmem with ⟨raw, hraw, heq⟩
    have := h ch results ho raw hraw
    rw [← heq]
    simpa [RawResult.withUrl] using this
  | err msg =>
    rw [ho] at hmem
    simp only [List.mem_singleton] at hmem
    subst hmem
    have : ∀ c ∈ chapterKeys, c ++ "-error" ≠ "page-load" := by decide
    simpa [chapterErrorResult] using this ch hch

theorem runCustomChecks_chapter_valid (outcomes : String → AdapterOutcome)
    (url : String) (h : adaptersValid outcomes = true) :
    ∀ r ∈ runCustomChecks outcomes url,
      ∃ c ∈ chapterKeys, r.chapter = some c := by
  intro r hr
  rw [runCustomChecks_eq_flatMap] at hr
  rcases List.mem_flatMap.mp hr with ⟨ch, hch, hmem⟩
  have hvalid := (List.all_eq_true.mp h) ch hch
  cases ho : outcomes ch with
  | ok results =>
    rw [ho] at hmem hvalid
    rcases List.mem_map.mp hmem with ⟨raw, hraw, heq⟩
    have hraw' := (List.all_eq_true.mp hvalid) raw hraw
    unfold rawChapterValid at hraw'
    cases hc : raw.chapter with
    | none => rw [hc] at hraw'; simp at hraw'
    | some c =>
      rw [hc] at hraw'
      refine ⟨c, ?_, ?_⟩
      · exact List.mem_of_elem_eq_true hraw'
      · rw [← heq]; simpa [RawResult.withUrl] using hc
  | err msg =>
    rw [ho] at hmem
    simp only [List.mem_singleton] at hmem
    subst hmem
    exact ⟨ch, hch, rfl⟩

/-! ### Claim theorems -/

/-- C1 (counterexample): the claim that the three phase predicates of
`generateClientPresentation` are mutually exclusive over the impact×effort
grid is false — an item with impact `high` and effort `complex` satisfies
both the Phase 2 predicate (`impact high && effort != simple`) and the
Phase 3 predicate (`effort complex || ...`). -/
theorem C1_phase_overlap_counterexample :
    phase1Pred ⟨"Video captions", "high", "complex"⟩ = false
  ∧ phase2Pred ⟨"Video captions", "high", "complex"⟩ = true
  ∧ phase3Pred ⟨"Video captions", "high", "complex"⟩ = true := by
  decide

/-- C1 (amended): over the 3×3 impact×effort grid the three phase predicates
are jointly exhaustive, and mutually exclusive at every combination except
(impact high, effort complex), where the Phase 2 and Phase 3 predicates both
hold. -/
theorem C1_phases_amended (i : FixItem)
    (hi : i.impact ∈ ["high", "medium", "low"])
    (he : i.effort ∈ ["simple", "moderate", "complex"]) :
    (phase1Pred i || phase2Pred i || phase3Pred i) = true
  ∧ (¬(i.impact = "high" ∧ i.effort = "complex") →
      (phase1Pred i && phase2Pred i) = false
      ∧ (phase1Pred i && phase3Pred i) = false
      ∧ (phase2Pred i && phase3Pred i) = false)
  ∧ (i.impact = "high" → i.effort = "complex" →
      phase1Pred i = false ∧ phase2Pred i = true ∧ phase3Pred i = true) := by
  obtain ⟨r, imp, eff⟩ := i
  simp only [List.mem_cons, List.mem_singleton, List.not_mem_nil, or_false] at hi he
  rcases hi with rfl | rfl | rfl <;> rcases he with rfl | rfl | rfl <;>
    refine ⟨by rfl, fun hne => ⟨by rfl, by rfl, ?_⟩, fun h1 h2 => ?_⟩ <;>
    first
      | rfl
      | exact absurd ⟨rfl, rfl⟩ hne
      | exact ⟨rfl, rfl, rfl⟩
      | simp_all

/-- C1 (amended, witness): the amended statement at the concrete grid point
(impact medium, effort simple), which lies in Phase 2 only. -/
theorem C1_phases_amended_witness :
    (phase1Pred ⟨"Use list markup", "medium", "simple"⟩ ||
     phase2Pred ⟨"Use list markup", "medium", "simple"⟩ ||
     phase3Pred ⟨"Use list markup", "medium", "simple"⟩) = true
  ∧ (phase1Pred ⟨"Use list markup", "medium", "simple"⟩ &&
     phase2Pred ⟨"Use list markup", "medium", "simple"⟩) = false
  ∧ (phase1Pred ⟨"Use list markup", "medium", "simple"⟩ &&
     phase3Pred ⟨"Use list markup", "medium", "simple"⟩) = false
  ∧ (phase2Pred ⟨"Use list markup", "medium", "simple"⟩ &&
     phase3Pred ⟨"Use list markup", "medium", "simple"⟩) = false := by
  have h := C1_phases_amended ⟨"Use list markup", "medium", "simple"⟩
    (by decide) (by decide)
  exact ⟨h.1, h.2.1 (by decide)⟩

/-- C2 (confirmed): the score of `generateReport` is 100 when all four
counters are 0 (total 0), otherwise the round-half-up of `100 * pass /
total`; the defensive clamp is the identity on it, it agrees with the spec's
`computeScore` contract, it never exceeds 100, and the four documented
examples hold. -/
theorem C2_score_spec (p f w a : Nat) :
    computeScore p f w a ≤ 100
  ∧ scoreClamp (computeScore p f w a) = computeScore p f w a
  ∧ computeScore p f w a = specComputeScore p f w a
  ∧ computeScore 0 0 0 0 = 100
  ∧ computeScore 10 0 0 0 = 100
  ∧ computeScore 0 10 0 0 = 0
  ∧ computeScore 5 5 0 0 = 50 := by
  refine ⟨computeScore_le p f w a,
    scoreClamp_of_le _ (computeScore_le p f w a), ?_, by decide, by decide,
    by decide, by decide⟩
  unfold computeScore specComputeScore
  by_cases h : p + f + w + a = 0
  · simp [h]
  · have hle : jsRound (p * 100) (p + f + w + a) ≤ 100 :=
      jsRound_le p (p + f + w + a) h (by omega)
    simp only [h, if_false]
    rw [Nat.mul_comm 100 p]
    omega

/-- C6 (confirmed): `categorizeAxeViolation` is total and never empty — for
every tags list it returns a non-empty list of chapter keys, and when no tag
matches the `AXE_TAG_TO_CHAPTER` table it returns exactly `["semantics"]`. -/
theorem C6_classifier_total (tags : List String) :
    categorizeAxeViolation tags ≠ []
  ∧ (∀ c ∈ categorizeAxeViolation tags, c ∈ chapterKeys)
  ∧ ((∀ t ∈ tags, tagLookup t = none) →
      categorizeAxeViolation tags = ["semantics"]) := by
  refine ⟨?_, categorize_subset tags, ?_⟩
  · unfold categorizeAxeViolation
    split
    · simp
    · assumption
  · intro h
    unfold categorizeAxeViolation
    simp [categorizeSet_of_all_none tags h]

/-- C6 (witness): the classifier at a tags list matching no table entry —
the hypothesis holds and the fallback singleton is returned. -/
theorem C6_classifier_total_witness :
    (∀ t ∈ (["experimental", "wcag2aaa"] : List String), tagLookup t = none)
  ∧ categorizeAxeViolation ["experimental", "wcag2aaa"] = ["semantics"] :=
  ⟨by decide, (C6_classifier_total ["experimental", "wcag2aaa"]).2.2 (by decide)⟩

/-- C9 (confirmed): `getRemediation` is total — it returns the
`REMEDIATION_MAP` entry of the check id when one exists, else the
`AXE_REMEDIATION` entry of the axe rule id when one exists, else the generic
placeholder with impact `medium`, effort `moderate` and an empty WCAG list;
in particular `getRemediation "unknown-id" "unknown-rule"` is the
placeholder. -/
theorem C9_remediation_total (checkId axeRuleId : String) :
    (∀ e, rmLookup checkId = some e → getRemediation checkId axeRuleId = e)
  ∧ (rmLookup checkId = none → ∀ e, axeRemLookup axeRuleId = some e →
      getRemediation checkId axeRuleId = e)
  ∧ (rmLookup checkId = none → axeRemLookup axeRuleId = none →
      getRemediation checkId axeRuleId = genericRemediation)
  ∧ genericRemediation = ⟨[], "medium", "moderate"⟩
  ∧ getRemediation "unknown-id" "unknown-rule" = genericRemediation := by
  refine ⟨?_, ?_, ?_, rfl, by decide⟩
  · intro e he
    unfold getRemediation
    rw [he]
  · intro hn e he
    unfold getRemediation
    rw [hn, he]
  · intro hn1 hn2
    unfold getRemediation
    rw [hn1, hn2]

/-- C9 (witness): the lookup-miss hypotheses hold at the documented unknown
ids and the placeholder is returned. -/
theorem C9_remediation_total_witness :
    rmLookup "unknown-id" = none
  ∧ axeRemLookup "unknown-rule" = none
  ∧ getRemediation "unknown-id" "unknown-rule" = genericRemediation :=
  ⟨by decide, by decide,
    (C9_remediation_total "unknown-id" "unknown-rule").2.2.1 (by decide) (by decide)⟩

/-- C10 (confirmed): for items whose impact is one of high/medium/low and
whose effort is one of simple/moderate/complex, `fixOrderScore` equals
`impactRank * 10 + effortRank` with the ranks of §4.4, and any item with
impact high and effort simple scores strictly lower than any item with a
different (impact, effort) combination. -/
theorem C10_fix_order (i : FixItem)
    (hi : i.impact ∈ ["high", "medium", "low"])
    (he : i.effort ∈ ["simple", "moderate", "complex"]) :
    fixOrderScore i = specImpactRank i.impact * 10 + specEffortRank i.effort
  ∧ (∀ j : FixItem, j.impact = "high" → j.effort = "simple" →
      ¬(i.impact = "high" ∧ i.effort = "simple") →
      fixOrderScore j < fixOrderScore i) := by
  obtain ⟨r, imp, eff⟩ := i
  simp only [List.mem_cons, List.mem_singleton, List.not_mem_nil, or_false] at hi he
  have hj : ∀ j : FixItem, j.impact = "high" → j.effort = "simple" →
      fixOrderScore j = 0 := by
    intro j h1 h2
    unfold fixOrderScore
    rw [h1, h2]
    rfl
  rcases hi with rfl | rfl | rfl <;> rcases he with rfl | rfl | rfl <;>
    refine ⟨by rfl, fun j h1 h2 hne => ?_⟩ <;>
    rw [hj j h1 h2] <;>
    first
      | (simp [fixOrderScore, IMPACT_ORDER, EFFORT_ORDER]; done)
      | simp at hne

/-- C10 (witness): the score formula and the quick-wins-first ordering at
concrete items. -/
theorem C10_fix_order_witness :
    fixOrderScore ⟨"Fix color contrast", "medium", "moderate"⟩
      = specImpactRank "medium" * 10 + specEffortRank "moderate"
  ∧ fixOrderScore ⟨"Add alt text", "high", "simple"⟩
      < fixOrderScore ⟨"Fix color contrast", "medium", "moderate"⟩ := by
  have h := C10_fix_order ⟨"Fix color contrast", "medium", "moderate"⟩
    (by decide) (by decide)
  exact ⟨h.1, h.2 ⟨"Add alt text", "high", "simple"⟩ rfl rfl (by decide)⟩

/-- C3 (counterexample): the run summary is not the exact `{pass, fail,
warn}` status counts — a run whose single page yields one `info`-status
check result (as the chapter-3 module always produces) has `summary.warn =
1` although no entry of `customResults` has status `warn`. -/
theorem C3_summary_counterexample :
    (mainLoop c3Loads ["https://a.example"]).summary.warn = 1
  ∧ (mainLoop c3Loads ["https://a.example"]).customResults.countP
      (fun r => r.status == "warn") = 0
  ∧ (mainLoop c3Loads ["https://a.example"]).customResults.countP
      (fun r => r.status == "info") = 1 := by
  decide

/-- C3 (amended): after a run, `summary.pass` and `summary.fail` are exactly
the counts of `customResults` entries with status `pass` respectively `fail`
(audit violations are not counted), while `summary.warn` counts every entry
whose status is neither `pass` nor `fail` — the statuses `warn` and `info`
alike, since the loop's `else` branch catches them both. -/
theorem C3_summary_amended (urls : List String) (loads : String → PageLoad) :
    (mainLoop loads urls).summary.pass
      = (mainLoop loads urls).customResults.countP (fun r => r.status == "pass")
  ∧ (mainLoop loads urls).summary.fail
      = (mainLoop loads urls).customResults.countP (fun r => r.status == "fail")
  ∧ (mainLoop loads urls).summary.warn
      = (mainLoop loads urls).customResults.countP
          (fun r => !(r.status == "pass") && !(r.status == "fail")) := by
  rw [mainLoop_spec, summary_foldl_spec]
  simp

theorem perUrlAxe_keys (loads : String → PageLoad) (urls : List String) :
    (urls.flatMap (fun u => (perUrlAxe loads u).toList)).map Prod.fst
      = urls.filter (fun u => loadOk loads u) := by
  induction urls with
  | nil => rfl
  | cons u t ih =>
    simp only [List.flatMap_cons, List.map_append, List.filter_cons, ih]
    unfold perUrlAxe loadOk
    cases loads u <;> simp

theorem filter_flatMap {α β : Type} (p : β → Bool) (g : α → List β)
    (l : List α) :
    (l.flatMap g).filter p = l.flatMap (fun x => (g x).filter p) := by
  induction l with
  | nil => rfl
  | cons x t ih => simp only [List.flatMap_cons, List.filter_append, ih]

theorem flatMap_perUrl_pageLoad (loads : String → PageLoad) (urls : List String)
    (hnp : ∀ u env, loads u = PageLoad.ok env →
      ∀ ch rs, env.adapters ch = AdapterOutcome.ok rs →
        ∀ r ∈ rs, r.id ≠ "page-load") :
    (urls.flatMap (perUrlResults loads)).filter (fun r => r.id == "page-load")
      = urls.filterMap (fun u => match loads u with
          | PageLoad.fail msg => some (pageLoadResult u msg)
          | PageLoad.ok _ => none) := by
  rw [filter_flatMap]
  induction urls with
  | nil => rfl
  | cons u t ih =>
    simp only [List.flatMap_cons, List.filterMap_cons, ih]
    unfold perUrlResults
    cases hl : loads u with
    | ok env =>
      have hempty : (runCustomChecks env.adapters u).filter
          (fun r => r.id == "page-load") = [] := by
        rw [List.filter_eq_nil_iff]
        intro r hr
        have := runCustomChecks_no_page_load env.adapters u
          (hnp u env hl) r hr
        simpa using this
      simp [hempty]
    | fail msg =>
      simp [pageLoadResult]

/-- C4 (confirmed): for every URL whose page load fails the run produces
exactly one synthetic `page-load` CheckResult carrying the URL and the error
message (and, provided the check modules never use the id `page-load`, no
other entry has that id); the failed URL appears in neither the report's
`urls` list nor its `axeResults` keys; and `summary.fail` is at least the
number of failed URLs — so with 3 submitted URLs of which 1 fails,
`urls.length = 2`, `customResults` has exactly one `page-load` entry and
`summary.fail ≥ 1`. -/
theorem C4_page_load_spec (urls : List String) (loads : String → PageLoad)
    (hnp : ∀ u env, loads u = PageLoad.ok env →
      ∀ ch rs, env.adapters ch = AdapterOutcome.ok rs →
        ∀ r ∈ rs, r.id ≠ "page-load") :
    (mainLoop loads urls).urls = urls.filter (fun u => loadOk loads u)
  ∧ (mainLoop loads urls).axeResults.map Prod.fst
      = urls.filter (fun u => loadOk loads u)
  ∧ (mainLoop loads urls).customResults.filter (fun r => r.id == "page-load")
      = urls.filterMap (fun u => match loads u with
          | PageLoad.fail msg => some (pageLoadResult u msg)
          | PageLoad.ok _ => none)
  ∧ (∀ u ∈ urls, loadOk loads u = false →
      u ∉ (mainLoop loads urls).urls
      ∧ (mainLoop loads urls).axeResults.find? (fun p => p.1 == u) = none)
  ∧ urls.countP (fun u => !loadOk loads u) ≤ (mainLoop loads urls).summary.fail := by
  rw [mainLoop_spec]
  refine ⟨rfl, perUrlAxe_keys loads urls,
    flatMap_perUrl_pageLoad loads urls hnp, ?_, ?_⟩
  · intro u hu hfail
    constructor
    · intro hmem
      have := (List.mem_filter.mp hmem).2
      rw [hfail] at this
      exact Bool.false_ne_true this
    · rw [List.find?_eq_none]
      intro pr hpr heq
      have hkey : pr.1 ∈ (urls.flatMap
          (fun u => (perUrlAxe loads u).toList)).map Prod.fst :=
        List.mem_map_of_mem Prod.fst hpr
      rw [perUrlAxe_keys] at hkey
      have hok := (List.mem_filter.mp hkey).2
      have : pr.1 = u := by simpa using heq
      rw [this, hfail] at hok
      exact Bool.false_ne_true hok
  · rw [summary_foldl_spec]
    simp only [Nat.zero_add]
    rw [countP_flatMap, countP_eq_sum_map]
    refine List.sum_le_sum ?_
    intro u _
    unfold perUrlResults loadOk
    cases loads u with
    | ok env => simp
    | fail msg => simp [pageLoadResult]

/-- C4 (witness): the 3-URL scenario — second URL times out, the others load
with a mix of pass/fail/warn checks: the report keeps exactly the two loaded
URLs, exactly one `page-load` entry with the failed URL's error message
appears, and `summary.fail ≥ 1`. -/
theorem C4_page_load_spec_witness :
    (mainLoop c4Loads c4Urls).urls = ["https://a.example", "https://c.example"]
  ∧ (mainLoop c4Loads c4Urls).customResults.filter (fun r => r.id == "page-load")
      = [pageLoadResult "https://b.example" "Timeout 60000ms exceeded"]
  ∧ "https://b.example" ∉ (mainLoop c4Loads c4Urls).urls
  ∧ (mainLoop c4Loads c4Urls).axeResults.find?
      (fun p => p.1 == "https://b.example") = none
  ∧ 1 ≤ (mainLoop c4Loads c4Urls).summary.fail := by
  have hnp : ∀ u env, c4Loads u = PageLoad.ok env →
      ∀ ch rs, env.adapters ch = AdapterOutcome.ok rs →
        ∀ r ∈ rs, r.id ≠ "page-load" := by
    intro u env heq ch rs hadapter r hr
    unfold c4Loads at heq
    split at heq
    · exact absurd heq (by simp)
    · have henv : env = okPageEnv := by
        injection heq with h
        exact h.symm
      subst henv
      have hrs : rs = [passRawResult, failRawResult, warnRawResult] ∨ rs = [] := by
        unfold okPageEnv onlyChapterOutcome at hadapter
        simp only [] at hadapter
        split at hadapter
        · left; injection hadapter with h; exact h.symm
        · right; injection hadapter with h; exact h.symm
      rcases hrs with rfl | rfl
      · simp only [List.mem_cons, List.mem_singleton,
          List.not_mem_nil, or_false] at hr
        rcases hr with rfl | rfl | rfl <;> decide
      · exact absurd hr (List.not_mem_nil r)
  obtain ⟨h1, _, h3, h4, h5⟩ := C4_page_load_spec c4Urls c4Loads hnp
  refine ⟨?_, ?_, ?_, ?_, ?_⟩
  · rw [h1]; rfl
  · rw [h3]; rfl
  · exact (h4 "https://b.example" (by decide) (by decide)).1
  · exact (h4 "https://b.example" (by decide) (by decide)).2
  · refine le_trans ?_ h5
    decide

/-- C5 (counterexample): not every `customResults` entry carries a chapter
field naming one of the 8 chapter keys — the synthetic `page-load` result
pushed when a page fails to load has no `chapter` property at all, so a run
whose only URL fails to load has a `customResults` entry with no valid
chapter. -/
theorem C5_chapter_counterexample :
    (mainLoop c5Loads ["https://a.example"]).customResults
      = [pageLoadResult "https://a.example"
          "net::ERR_CONNECTION_REFUSED at https://a.example"]
  ∧ (pageLoadResult "https://a.example"
      "net::ERR_CONNECTION_REFUSED at https://a.example").chapter = none
  ∧ ((mainLoop c5Loads ["https://a.example"]).customResults.all
      (fun r => match r.chapter with
        | some c => chapterKeys.contains c
        | none => false)) = false := by
  decide

/-- C5 (amended): provided every chapter module tags its results with one of
the 8 chapter keys (which each module source does via its `chapterId`
constant), every entry of a run's `customResults` either is the synthetic
`page-load` result — which has no chapter field — or carries a chapter that
is one of the 8 chapter keys; the per-chapter `-error` synthetics always
carry their chapter's key. -/
theorem C5_chapter_amended (urls : List String) (loads : String → PageLoad)
    (hch : ∀ u env, loads u = PageLoad.ok env →
      adaptersValid env.adapters = true) :
    ∀ r ∈ (mainLoop loads urls).customResults,
      (r.id = "page-load" ∧ r.chapter = none)
      ∨ ∃ c ∈ chapterKeys, r.chapter = some c := by
  intro r hr
  rw [mainLoop_spec] at hr
  rcases List.mem_flatMap.mp hr with ⟨u, _, hmem⟩
  unfold perUrlResults at hmem
  cases hl : loads u with
  | ok env =>
    rw [hl] at hmem
    exact Or.inr (runCustomChecks_chapter_valid env.adapters u (hch u env hl) r hmem)
  | fail msg =>
    rw [hl] at hmem
    simp only [List.mem_singleton] at hmem
    subst hmem
    exact Or.inl ⟨rfl, rfl⟩

/-- C5 (amended, witness): in a concrete run with one loaded and one failed
URL, the synthetic `page-load` entry is in `customResults` and satisfies the
amended disjunction through its left branch. -/
theorem C5_chapter_amended_witness :
    (pageLoadResult "https://b.example" "boom").id = "page-load"
      ∧ (pageLoadResult "https://b.example" "boom").chapter = none
  ∨ ∃ c ∈ chapterKeys, (pageLoadResult "https://b.example" "boom").chapter = some c := by
  have hch : ∀ u env, c5wLoads u = PageLoad.ok env →
      adaptersValid env.adapters = true := by
    intro u env heq
    unfold c5wLoads at heq
    split at heq
    · exact absurd heq (by simp)
    · have henv : env = okPageEnv := by
        injection heq with h
        exact h.symm
      subst henv
      decide
  exact C5_chapter_amended ["https://a.example", "https://b.example"]
    c5wLoads hch (pageLoadResult "https://b.example" "boom") (by decide)

/-- C7 (confirmed): for any input record lists, the `byChapter` map built by
`runAxeScan` carries a bucket (violations / incomplete / passes) for every
one of the 8 chapter keys — even empty ones — and each record lands in the
bucket of exactly the chapters returned by the classifier for its tags, in
input order (fan-out: a record classified into several chapters appears in
each of those buckets). -/
theorem C7_bucket_fanout (violations incomplete passes : List AuditRecord)
    (url : String) (ch : String) (h : ch ∈ chapterKeys) :
    (runAxeScan violations incomplete passes url).byChapter ch
      = some { violations := violations.filter
                 (fun v => decide (ch ∈ categorizeAxeViolation v.tags))
               incomplete := incomplete.filter
                 (fun v => decide (ch ∈ categorizeAxeViolation v.tags))
               passes := passes.filter
                 (fun v => decide (ch ∈ categorizeAxeViolation v.tags)) } :=
  runAxeScanByChapter_spec violations incomplete passes ch h

/-- C7 (witness): a record tagged `cat.layout` classifies into both
`responsive` and `visualDesign`; the scan of a singleton violation list
yields that record in both buckets (fan-out) and an empty bucket for
`forms`. -/
theorem C7_bucket_fanout_witness :
    (runAxeScan [⟨"layout-rule", ["cat.layout"]⟩] [] [] "https://a.example").byChapter
        "responsive"
      = some { violations := [⟨"layout-rule", ["cat.layout"]⟩],
               incomplete := [], passes := [] }
  ∧ (runAxeScan [⟨"layout-rule", ["cat.layout"]⟩] [] [] "https://a.example").byChapter
        "visualDesign"
      = some { violations := [⟨"layout-rule", ["cat.layout"]⟩],
               incomplete := [], passes := [] }
  ∧ (runAxeScan [⟨"layout-rule", ["cat.layout"]⟩] [] [] "https://a.example").byChapter
        "forms"
      = some { violations := [], incomplete := [], passes := [] } := by
  refine ⟨?_, ?_, ?_⟩
  · rw [C7_bucket_fanout [⟨"layout-rule", ["cat.layout"]⟩] [] []
      "https://a.example" "responsive" (by decide)]
    decide
  · rw [C7_bucket_fanout [⟨"layout-rule", ["cat.layout"]⟩] [] []
      "https://a.example" "visualDesign" (by decide)]
    decide
  · rw [C7_bucket_fanout [⟨"layout-rule", ["cat.layout"]⟩] [] []
      "https://a.example" "forms" (by decide)]
    decide


/-- C8 (confirmed): for every known disability category `d`, the
`disabilityStats` accumulation of `generateReport` yields exactly: one count
per `CheckResult` instance for each category listed for its check id in
`DISABILITY_MAP` (ids not in the map counting once toward "Various"), plus
one count per static manual-verification / assistive-tech checklist item
listing `d`, plus — for "Various" only — each `axeResults` entry's violation
count times `max(1, urlCount)`.  Counts accrue once per result instance, not
once per tag-times-instance. -/
theorem C8_disability_stats (customResults : List CheckResult)
    (axeViolationCounts : List Nat) (urlCount : Nat) (d : String)
    (hd : d ∈ ALL_DISABILITIES) :
    disabilityStats customResults axeViolationCounts urlCount d
      = some ((customResults.map
            (fun r => if d ∈ (dmLookup r.id).getD ["Various"] then 1 else 0)).sum
          + ((MANUAL_VERIFICATION_ITEMS ++ ASSISTIVE_TECH_ITEMS).map
              (fun ds => if d ∈ ds then 1 else 0)).sum
          + (if d = "Various" then
              (axeViolationCounts.map
                (fun c => c * max 1 (if urlCount = 0 then 1 else urlCount))).sum
             else 0)) := by
  unfold disabilityStats
  have hmanual : ∀ ds ∈ MANUAL_VERIFICATION_ITEMS ++ ASSISTIVE_TECH_ITEMS,
      (id ds).Nodup := by decide
  have h1 := foldl_bumpLists_spec
    (fun r : CheckResult => (dmLookup r.id).getD ["Various"]) customResults
    (fun r _ => dmLookup_nodup r.id)
    (fun d => if d ∈ ALL_DISABILITIES then some 0 else none)
  have h2 := foldl_bumpLists_spec (fun ds : List String => ds)
    (MANUAL_VERIFICATION_ITEMS ++ ASSISTIVE_TECH_ITEMS) hmanual
  by_cases hvar : d = "Various"
  · subst hvar
    rw [foldl_addVarious_spec _ _ _
      ((customResults.map (fun r =>
          if "Various" ∈ (dmLookup r.id).getD ["Various"] then 1 else 0)).sum
        + ((MANUAL_VERIFICATION_ITEMS ++ ASSISTIVE_TECH_ITEMS).map
            (fun ds => if "Various" ∈ ds then 1 else 0)).sum)]
    · simp
    · rw [h2, h1]
      simp [hd, Nat.add_assoc]
  · rw [foldl_addVarious_ne _ _ _ _ hvar, h2, h1]
    simp [hd, hvar, Nat.add_assoc]

/-- C8 (witness): the scenario of the spec — the check id `skip-link`
(mapped to Blindness and Dexterity/Motor Disabilities) occurring as 2
CheckResult instances (one per tested URL) contributes 2, not 4, to each of
those two counters on top of the static checklist contributions (13 items
list Blindness, 7 list Dexterity/Motor Disabilities). -/
theorem C8_disability_stats_witness :
    disabilityStats
      [ { id := "skip-link", rule := "Skip link", status := "fail",
          message := "missing", chapter := some "semantics",
          url := "https://a.example" },
        { id := "skip-link", rule := "Skip link", status := "fail",
          message := "missing", chapter := some "semantics",
          url := "https://b.example" } ] [] 2 "Blindness" = some 15
  ∧ disabilityStats
      [ { id := "skip-link", rule := "Skip link", status := "fail",
          message := "missing", chapter := some "semantics",
          url := "https://a.example" },
        { id := "skip-link", rule := "Skip link", status := "fail",
          message := "missing", chapter := some "semantics",
          url := "https://b.example" } ] [] 2 "Dexterity/Motor Disabilities"
      = some 9 := by
  constructor
  · rw [C8_disability_stats _ [] 2 "Blindness" (by decide)]
    decide
  · rw [C8_disability_stats _ [] 2 "Dexterity/Motor Disabilities" (by decide)]
    decide
